import Mathlib

/-!
Verification of the NeoMutt key/value store GDBM adapter (store/gdbm.c),
the maildir config delimiter validator (maildir/config.c) and the index
shared data helpers (index/shared_data.c), as a shallow embedding.

Byte strings are lists of naturals (one per byte); the external GDBM
engine is modelled as an association list from keys to values, with the
documented semantics of gdbm_fetch, gdbm_store under GDBM_REPLACE and
gdbm_delete.  Handles and C pointers that may be NULL are Option values.
Out parameters are threaded explicitly: a function that writes through a
pointer takes the incoming contents and returns the outgoing contents.
-/

/-- Byte strings: a list of byte values. -/
abbrev Bytes := List Nat

/-- Contents of an open GDBM database: an association list from keys to
values, modelling the bytes the external engine persists. -/
abbrev GdbmDb := List (Bytes × Bytes)

/-- C INT_MAX, the 32-bit signed bound the adapter validates lengths
against (limits.h). -/
def INT_MAX : Nat := 2147483647

/-- Engine model: gdbm_fetch returns the value stored under the key, or
none (the engine returns a datum with a NULL dptr and dsize 0) when the
key is absent. -/
def gdbm_fetch (db : GdbmDb) (dkey : Bytes) : Option Bytes :=
  match db with
  | [] => none
  | (k, v) :: rest => if k = dkey then some v else gdbm_fetch rest dkey

/-- Engine model: gdbm_store with the GDBM_REPLACE flag fully replaces
the record held under an equal key, or appends a new record when the key
is absent. -/
def gdbm_store_replace (db : GdbmDb) (dkey dval : Bytes) : GdbmDb :=
  match db with
  | [] => [(dkey, dval)]
  | (k, v) :: rest =>
    if k = dkey then (dkey, dval) :: rest
    else (k, v) :: gdbm_store_replace rest dkey dval

/-- Engine model: removal of the record held under a key, used by
gdbm_delete. -/
def gdbm_remove (db : GdbmDb) (dkey : Bytes) : GdbmDb :=
  match db with
  | [] => []
  | (k, v) :: rest => if k = dkey then rest else (k, v) :: gdbm_remove rest dkey

/-- Engine model: gdbm_delete returns 0 and removes the record when the
key is present, and returns -1 leaving the database unchanged when it is
absent. -/
def gdbm_delete (db : GdbmDb) (dkey : Bytes) : Int × GdbmDb :=
  if (gdbm_fetch db dkey).isSome then (0, gdbm_remove db dkey) else (-1, db)

/-- Modes store_gdbm_open passes to gdbm_open: GDBM_WRCREAT (read-write,
create) and GDBM_READER (strictly read-only). -/
inductive GdbmOpenMode
  | wrcreat
  | reader
deriving DecidableEq

/-- Environment for open: what the external gdbm_open returns for a given
path and mode (none models a NULL GDBM_FILE, e.g. permissions, corruption
or lock contention). -/
structure GdbmEnv where
  openResult : Bytes → GdbmOpenMode → Option GdbmDb

/-- store_gdbm_open from store/gdbm.c: a NULL path yields NULL; otherwise
a first gdbm_open with GDBM_WRCREAT, and exactly when that fails a second
gdbm_open with GDBM_READER.  The second component records the sequence of
engine invocations made. -/
def store_gdbm_open (env : GdbmEnv) (path : Option Bytes) :
    Option GdbmDb × List GdbmOpenMode :=
  match path with
  | none => (none, [])
  | some p =>
    match env.openResult p GdbmOpenMode.wrcreat with
    | some db => (some db, [GdbmOpenMode.wrcreat])
    | none =>
      (env.openResult p GdbmOpenMode.reader,
       [GdbmOpenMode.wrcreat, GdbmOpenMode.reader])

/-- Result of store_gdbm_fetch: the returned value pointer (none models
NULL), the contents of the vlen out parameter after the call (the caller
supplies its incoming contents), the database behind the handle after the
call, and whether the engine was invoked. -/
structure FetchResult where
  value : Option Bytes
  vlen : Nat
  handle : Option GdbmDb
  engineCalled : Bool
deriving DecidableEq

/-- store_gdbm_fetch from store/gdbm.c: returns NULL at once when the
handle is NULL or klen exceeds INT_MAX (the vlen out parameter is not
written on this path); otherwise invokes gdbm_fetch and stores the datum
dsize through vlen, returning the datum dptr. -/
def store_gdbm_fetch (store : Option GdbmDb) (key : Bytes) (vlen0 : Nat) :
    FetchResult :=
  match store with
  | none => ⟨none, vlen0, none, false⟩
  | some db =>
    if INT_MAX < key.length then ⟨none, vlen0, some db, false⟩
    else
      match gdbm_fetch db key with
      | none => ⟨none, 0, some db, true⟩
      | some v => ⟨some v, v.length, some db, true⟩

/-- Result of store_gdbm_store and store_gdbm_delete_record: the return
code, the database behind the handle after the call, and whether the
engine was invoked. -/
structure StoreOpResult where
  rc : Int
  handle : Option GdbmDb
  engineCalled : Bool
deriving DecidableEq

/-- store_gdbm_store from store/gdbm.c: returns -1 at once when the
handle is NULL or klen or vlen exceeds INT_MAX; otherwise invokes
gdbm_store with the GDBM_REPLACE flag. -/
def store_gdbm_store (store : Option GdbmDb) (key : Bytes) (value : Bytes) :
    StoreOpResult :=
  match store with
  | none => ⟨-1, none, false⟩
  | some db =>
    if INT_MAX < key.length ∨ INT_MAX < value.length then ⟨-1, some db, false⟩
    else ⟨0, some (gdbm_store_replace db key value), true⟩

/-- store_gdbm_delete_record from store/gdbm.c: returns -1 at once when
the handle is NULL or klen exceeds INT_MAX; otherwise invokes gdbm_delete
and returns its code. -/
def store_gdbm_delete_record (store : Option GdbmDb) (key : Bytes) :
    StoreOpResult :=
  match store with
  | none => ⟨-1, none, false⟩
  | some db =>
    if INT_MAX < key.length then ⟨-1, some db, false⟩
    else
      let r := gdbm_delete db key
      ⟨r.1, some r.2, true⟩

/-- store_gdbm_close from store/gdbm.c: takes the callers handle
reference (outer Option models a NULL pointer to the slot, inner Option
the slot contents).  Returns the reference after the call and whether
gdbm_close was invoked: a NULL reference or an already NULL handle is a
no-op; otherwise the engine is closed and the slot is set to NULL. -/
def store_gdbm_close (ptr : Option (Option GdbmDb)) :
    Option (Option GdbmDb) × Bool :=
  match ptr with
  | none => (none, false)
  | some none => (some none, false)
  | some (some _) => (some none, true)

/-- Deallocation routines a fetched buffer could be released through: the
generic allocator (the FREE wrapper over the C library free) or a routine
provided by the backend engine itself. -/
inductive DeallocRoutine
  | generic
  | backendSpecific
deriving DecidableEq

/-- Result of store_gdbm_free: the callers buffer reference after the
call, and which deallocation routine ran, if any. -/
structure FreeResult where
  bufref : Option (Option Bytes)
  called : Option DeallocRoutine
deriving DecidableEq

/-- Modelled from the spec: the repository FREE macro (mutt memory
wrapper, not under src/), a release through the generic allocator that is
a no-op on a NULL reference or a NULL buffer and otherwise frees the
buffer with the generic allocator and clears the reference. -/
def FREE (ptr : Option (Option Bytes)) : FreeResult :=
  match ptr with
  | none => ⟨none, none⟩
  | some none => ⟨some none, none⟩
  | some (some _) => ⟨some none, some DeallocRoutine.generic⟩

/-- store_gdbm_free from store/gdbm.c: the body is exactly FREE(ptr), the
generic allocator wrapper; the store handle is not consulted. -/
def store_gdbm_free (store : Option GdbmDb) (ptr : Option (Option Bytes)) :
    FreeResult :=
  FREE ptr

/-- CSR_SUCCESS from the config library: the action was successful. -/
def CSR_SUCCESS : Int := 0

/-- CSR_ERR_INVALID from the config library: the value or operation was
invalid. -/
def CSR_ERR_INVALID : Int := 3

/-- C isalnum on a byte in the C locale: a decimal digit or an ASCII
letter. -/
def c_isalnum (c : Nat) : Bool :=
  (48 ≤ c && c ≤ 57) || (65 ≤ c && c ≤ 90) || (97 ≤ c && c ≤ 122)

/-- C strlen on a byte string: the number of bytes before the first NUL
byte. -/
def c_strlen (s : Bytes) : Nat :=
  (s.takeWhile (fun b => b != 0)).length

/-- Dereference of a C string pointer: its first byte, or the NUL
terminator for an empty string. -/
def c_strhead (s : Bytes) : Nat :=
  s.headD 0

/-- C strchr viewed as a hit test: strchr(s, c) is non-NULL exactly when
c occurs in s or c is the NUL terminator itself. -/
def strchr_found (s : Bytes) (c : Nat) : Bool :=
  s.contains c || c == 0

/-- The bytes of the C string literal checked by the validator: the
characters minus, dot, backslash and slash. -/
def delimiterExclusions : Bytes := [45, 46, 92, 47]

/-- Result of the delimiter validator: the CSR return code and the static
changed flag after the call. -/
structure ValidatorResult where
  rc : Int
  changed : Bool
deriving DecidableEq

/-- maildir_field_delimiter_validator from maildir/config.c.  The static
bool maildir_field_delimiter_changed is threaded explicitly as the
incoming changed flag; initial is the byte string behind cdef initial and
value the offered byte string.  The checks run in source order: length
exactly one, then not alphanumeric and not one of the excluded
characters, then the changed flag, then the flag is raised when the
accepted byte differs from the first byte of the initial value. -/
def maildir_field_delimiter_validator (changed : Bool) (initial : Bytes)
    (value : Bytes) : ValidatorResult :=
  if c_strlen value ≠ 1 then ⟨CSR_ERR_INVALID, changed⟩
  else if c_isalnum (c_strhead value) || strchr_found delimiterExclusions (c_strhead value) then
    ⟨CSR_ERR_INVALID, changed⟩
  else if changed then ⟨CSR_ERR_INVALID, changed⟩
  else if c_strhead value ≠ c_strhead initial then ⟨CSR_SUCCESS, true⟩
  else ⟨CSR_SUCCESS, changed⟩

/-- The configured initial value of maildir_field_delimiter in
MaildirVars: the one-character string ":" (byte 58). -/
def maildirFieldDelimiterInitial : Bytes := [58]

/-- The changed flag after validating each value of a list in order,
starting from a given flag; models repeated calls against the static
flag. -/
def validateSeqChanged (initial : Bytes) (vs : List Bytes) (changed : Bool) : Bool :=
  match vs with
  | [] => changed
  | v :: rest =>
    validateSeqChanged initial rest
      (maildir_field_delimiter_validator changed initial v).changed

/-- An account, modelled by its identity (pointer identity in the C). -/
structure Account where
  id : Nat
deriving DecidableEq

/-- A mailbox: its identity and the account it belongs to. -/
structure Mailbox where
  id : Nat
  account : Option Account
deriving DecidableEq

/-- An email: its identity and its sequence number. -/
structure Email where
  id : Nat
  sequence : Nat
deriving DecidableEq

/-- A mailbox view: its identity and the mailbox it views. -/
structure MailboxView where
  id : Nat
  mailbox : Option Mailbox
deriving DecidableEq

/-- A config subset, modelled by its identity. -/
abbrev ConfigSubset := Nat

/-- IndexSharedData from index/shared_data.h: the fields
index_shared_data_set_mview and index_shared_data_is_cur_email read and
write. -/
structure IndexSharedData where
  mailbox_view : Option MailboxView
  mailbox : Option Mailbox
  account : Option Account
  sub : ConfigSubset
  email : Option Email
  email_seq : Nat
deriving DecidableEq

/-- Modelled from the spec: mview_mailbox (index/mview.c, not under
src/), the mailbox derived from a mailbox view; a NULL view yields a NULL
mailbox. -/
def mview_mailbox (mv : Option MailboxView) : Option Mailbox :=
  match mv with
  | none => none
  | some v => v.mailbox

/-- The NT_INDEX notification subtype flags accumulated by
index_shared_data_set_mview, one bool per flag. -/
structure NotifyIndexFlags where
  mview : Bool
  mailbox : Bool
  email : Bool
  account : Bool
  subset : Bool
deriving DecidableEq

/-- Body of index_shared_data_set_mview for a non-NULL shared pointer:
each block compares a field, updates it and accumulates its flag; the
mailbox block also resets email to NULL and email_seq to 0; sub is always
compared against the global NeoMutt sub (the alternative in the disabled
block is not compiled). -/
def set_mview_core (sd : IndexSharedData) (mv : Option MailboxView)
    (nsub : ConfigSubset) : IndexSharedData × NotifyIndexFlags :=
  let f1 := sd.mailbox_view ≠ mv
  let sd1 := if sd.mailbox_view ≠ mv then { sd with mailbox_view := mv } else sd
  let m := mview_mailbox mv
  let f2 := sd1.mailbox ≠ m
  let sd2 :=
    if sd1.mailbox ≠ m then
      { sd1 with mailbox := m, email := none, email_seq := 0 }
    else sd1
  let a := match m with
    | none => none
    | some mb => mb.account
  let f3 := sd2.account ≠ a
  let sd3 := if sd2.account ≠ a then { sd2 with account := a } else sd2
  let f4 := sd3.sub ≠ nsub
  let sd4 := if sd3.sub ≠ nsub then { sd3 with sub := nsub } else sd3
  (sd4, ⟨decide f1, decide f2, decide f2, decide f3, decide f4⟩)

/-- index_shared_data_set_mview from index/shared_data.c: a NULL shared
pointer returns at once; otherwise the field updates of set_mview_core
run and the accumulated flags are the notification subtype sent. -/
def index_shared_data_set_mview (shared : Option IndexSharedData)
    (mv : Option MailboxView) (nsub : ConfigSubset) :
    Option IndexSharedData × NotifyIndexFlags :=
  match shared with
  | none => (none, ⟨false, false, false, false, false⟩)
  | some sd =>
    let r := set_mview_core sd mv nsub
    (some r.1, r.2)

/-- index_shared_data_is_cur_email from index/shared_data.c: false for a
NULL shared pointer, otherwise the comparison of the shared email_seq
with the sequence of the offered email. -/
def index_shared_data_is_cur_email (shared : Option IndexSharedData)
    (e : Email) : Bool :=
  match shared with
  | none => false
  | some sd => sd.email_seq == e.sequence

/-- Fetching a key right after storing under it yields the stored value:
the GDBM_REPLACE record fully shadows any earlier record for the key. -/
theorem gdbm_fetch_store_replace (db : GdbmDb) (k v : Bytes) :
    gdbm_fetch (gdbm_store_replace db k v) k = some v := by
  induction db with
  | nil => simp [gdbm_store_replace, gdbm_fetch]
  | cons p rest ih =>
    obtain ⟨k0, v0⟩ := p
    by_cases h : k0 = k
    · simp [gdbm_store_replace, h, gdbm_fetch]
    · simp [gdbm_store_replace, h, gdbm_fetch, ih]

/-- C1: for an open handle and lengths within INT_MAX, store followed by
fetch returns a value byte-equal to the stored value, and storing v2 over
a previously stored v1 then fetching returns exactly v2, never v1 and
never a concatenation (replace semantics via GDBM_REPLACE). -/
theorem store_gdbm_round_trip_replace (db : GdbmDb) (k v1 v2 : Bytes)
    (vlen0 : Nat) (hk : k.length ≤ INT_MAX) (hv1 : v1.length ≤ INT_MAX)
    (hv2 : v2.length ≤ INT_MAX) :
    (store_gdbm_fetch (store_gdbm_store (some db) k v2).handle k vlen0).value
      = some v2 ∧
    (store_gdbm_fetch
      (store_gdbm_store (store_gdbm_store (some db) k v1).handle k v2).handle
      k vlen0).value = some v2 := by
  have hk2 : ¬ INT_MAX < k.length := Nat.not_lt.mpr hk
  have hv12 : ¬ INT_MAX < v1.length := Nat.not_lt.mpr hv1
  have hv22 : ¬ INT_MAX < v2.length := Nat.not_lt.mpr hv2
  constructor
  · simp [store_gdbm_store, store_gdbm_fetch, hk2, hv22, gdbm_fetch_store_replace]
  · simp [store_gdbm_store, store_gdbm_fetch, hk2, hv12, hv22,
      gdbm_fetch_store_replace]

/-- Witness for C1 at concrete inputs: key 1, first value 2, second
value 3 on the empty database. -/
theorem store_gdbm_round_trip_replace_witness :
    (store_gdbm_fetch (store_gdbm_store (some ([] : GdbmDb)) [1] [3]).handle
      [1] 0).value = some [3] ∧
    (store_gdbm_fetch
      (store_gdbm_store (store_gdbm_store (some ([] : GdbmDb)) [1] [2]).handle
        [1] [3]).handle [1] 0).value = some [3] :=
  store_gdbm_round_trip_replace [] [1] [2] [3] 0 (by decide) (by decide)
    (by decide)

/-- C2: open first attempts a read-write create open, makes exactly one
second strictly read-only attempt exactly when the first fails, and
returns a NULL handle exactly when the path is NULL or both attempts
fail. -/
theorem store_gdbm_open_fallback (env : GdbmEnv) (p : Bytes) :
    store_gdbm_open env none = (none, []) ∧
    (∀ db, env.openResult p GdbmOpenMode.wrcreat = some db →
      store_gdbm_open env (some p) = (some db, [GdbmOpenMode.wrcreat])) ∧
    (env.openResult p GdbmOpenMode.wrcreat = none →
      store_gdbm_open env (some p) =
        (env.openResult p GdbmOpenMode.reader,
         [GdbmOpenMode.wrcreat, GdbmOpenMode.reader])) ∧
    ((store_gdbm_open env (some p)).1 = none ↔
      env.openResult p GdbmOpenMode.wrcreat = none ∧
      env.openResult p GdbmOpenMode.reader = none) := by
  refine ⟨rfl, ?_, ?_, ?_⟩
  · intro db h
    simp [store_gdbm_open, h]
  · intro h
    simp [store_gdbm_open, h]
  · cases h : env.openResult p GdbmOpenMode.wrcreat with
    | some db => simp [store_gdbm_open, h]
    | none =>
      cases h2 : env.openResult p GdbmOpenMode.reader with
      | some db => simp [store_gdbm_open, h, h2]
      | none => simp [store_gdbm_open, h, h2]

/-- Environment where the read-write create open fails and the read-only
open succeeds with an empty database. -/
def envFallback : GdbmEnv :=
  ⟨fun _ m => match m with
    | GdbmOpenMode.wrcreat => none
    | GdbmOpenMode.reader => some []⟩

/-- Witness for C2: in envFallback, open on a non-NULL path makes both
attempts in order and returns the read-only handle. -/
theorem store_gdbm_open_fallback_witness :
    store_gdbm_open envFallback (some [1]) =
      (some [], [GdbmOpenMode.wrcreat, GdbmOpenMode.reader]) := by
  have h := (store_gdbm_open_fallback envFallback [1]).2.2.1 rfl
  simpa [envFallback] using h

/-- A byte string one byte longer than INT_MAX permits. -/
def oversizedBytes : Bytes := List.replicate (INT_MAX + 1) 0

/-- The oversized byte string really exceeds INT_MAX. -/
theorem oversizedBytes_length : INT_MAX < oversizedBytes.length := by
  simp [oversizedBytes]

/-- C3: a key or value length beyond INT_MAX, or a NULL handle, makes
store, fetch and delete each fail at once with the engine never invoked
and the store state unchanged, so no partial write occurs. -/
theorem store_gdbm_capacity_guard (db : GdbmDb) (k v k2 v2 : Bytes)
    (vlen0 : Nat) (hk : INT_MAX < k.length) (hv : INT_MAX < v.length) :
    store_gdbm_store (some db) k v2 = ⟨-1, some db, false⟩ ∧
    store_gdbm_store (some db) k2 v = ⟨-1, some db, false⟩ ∧
    store_gdbm_fetch (some db) k vlen0 = ⟨none, vlen0, some db, false⟩ ∧
    store_gdbm_delete_record (some db) k = ⟨-1, some db, false⟩ ∧
    store_gdbm_store none k2 v2 = ⟨-1, none, false⟩ ∧
    store_gdbm_fetch none k2 vlen0 = ⟨none, vlen0, none, false⟩ ∧
    store_gdbm_delete_record none k2 = ⟨-1, none, false⟩ := by
  refine ⟨?_, ?_, ?_, ?_, rfl, rfl, rfl⟩
  · simp [store_gdbm_store, hk]
  · simp [store_gdbm_store, hv]
  · simp [store_gdbm_fetch, hk]
  · simp [store_gdbm_delete_record, hk]

/-- Witness for C3 at concrete inputs: the oversized byte string as key
or value against the empty database and the NULL handle. -/
theorem store_gdbm_capacity_guard_witness :
    store_gdbm_store (some ([] : GdbmDb)) oversizedBytes [1]
      = ⟨-1, some [], false⟩ ∧
    store_gdbm_store (some ([] : GdbmDb)) [1] oversizedBytes
      = ⟨-1, some [], false⟩ ∧
    store_gdbm_fetch (some ([] : GdbmDb)) oversizedBytes 5
      = ⟨none, 5, some [], false⟩ ∧
    store_gdbm_delete_record (some ([] : GdbmDb)) oversizedBytes
      = ⟨-1, some [], false⟩ ∧
    store_gdbm_store none [1] [1] = ⟨-1, none, false⟩ ∧
    store_gdbm_fetch none [1] 5 = ⟨none, 5, none, false⟩ ∧
    store_gdbm_delete_record none [1] = ⟨-1, none, false⟩ :=
  store_gdbm_capacity_guard [] oversizedBytes oversizedBytes [1] [1] 5
    oversizedBytes_length oversizedBytes_length

/-- C4 counterexample: fetch with a NULL handle and an incoming vlen of 7
returns a NULL value but leaves vlen at 7, not the pair of NULL and a
reported length of zero the claim states. -/
theorem store_gdbm_fetch_vlen_counterexample :
    (store_gdbm_fetch none [1] 7).value = none ∧
    (store_gdbm_fetch none [1] 7).vlen = 7 ∧
    ¬ (store_gdbm_fetch none [1] 7).vlen = 0 := by
  decide

/-- C4 (amended): fetch of an absent key returns a NULL value with vlen
written to zero and the store unchanged; fetch with a NULL handle or an
oversized key length returns a NULL value without invoking the engine,
without mutating the store, and with the vlen out parameter left
unchanged rather than written to zero. -/
theorem store_gdbm_fetch_failure_spec (db : GdbmDb) (k k2 : Bytes)
    (vlen0 : Nat) (hk : k.length ≤ INT_MAX) (habs : gdbm_fetch db k = none)
    (hk2 : INT_MAX < k2.length) :
    store_gdbm_fetch (some db) k vlen0 = ⟨none, 0, some db, true⟩ ∧
    store_gdbm_fetch none k vlen0 = ⟨none, vlen0, none, false⟩ ∧
    store_gdbm_fetch (some db) k2 vlen0 = ⟨none, vlen0, some db, false⟩ := by
  refine ⟨?_, rfl, ?_⟩
  · simp [store_gdbm_fetch, Nat.not_lt.mpr hk, habs]
  · simp [store_gdbm_fetch, hk2]

/-- Witness for C4 at concrete inputs: key 1 absent from the empty
database, incoming vlen 7, and the oversized key. -/
theorem store_gdbm_fetch_failure_spec_witness :
    store_gdbm_fetch (some ([] : GdbmDb)) [1] 7 = ⟨none, 0, some [], true⟩ ∧
    store_gdbm_fetch none [1] 7 = ⟨none, 7, none, false⟩ ∧
    store_gdbm_fetch (some ([] : GdbmDb)) oversizedBytes 7
      = ⟨none, 7, some [], false⟩ :=
  store_gdbm_fetch_failure_spec [] [1] oversizedBytes 7 (by decide) rfl
    oversizedBytes_length

/-- C5: close with a live handle invokes the engine close and sets the
callers reference to NULL; a NULL reference or an already NULL handle is
a safe no-op, and a second close after any close changes nothing and
does not invoke the engine. -/
theorem store_gdbm_close_idempotent (ptr : Option (Option GdbmDb))
    (db : GdbmDb) :
    store_gdbm_close (some (some db)) = (some none, true) ∧
    store_gdbm_close none = (none, false) ∧
    store_gdbm_close (some none) = (some none, false) ∧
    store_gdbm_close (store_gdbm_close ptr).1
      = ((store_gdbm_close ptr).1, false) := by
  refine ⟨rfl, rfl, rfl, ?_⟩
  match ptr with
  | none => rfl
  | some none => rfl
  | some (some db2) => rfl

/-- C6 counterexample: free on a live buffer reference runs the generic
allocator FREE, not a backend provided deallocation routine. -/
theorem store_gdbm_free_generic_counterexample :
    (store_gdbm_free none (some (some [1]))).called
      = some DeallocRoutine.generic ∧
    ¬ (store_gdbm_free none (some (some [1]))).called
      = some DeallocRoutine.backendSpecific := by
  decide

/-- C6 (amended): free is a no-op when the buffer reference is NULL or
the buffer itself is NULL, and otherwise releases the buffer through the
generic allocator FREE and clears the reference; no backend specific
deallocation routine is ever involved. -/
theorem store_gdbm_free_spec (store : Option GdbmDb) (b : Bytes)
    (ptr : Option (Option Bytes)) :
    store_gdbm_free store none = ⟨none, none⟩ ∧
    store_gdbm_free store (some none) = ⟨some none, none⟩ ∧
    store_gdbm_free store (some (some b))
      = ⟨some none, some DeallocRoutine.generic⟩ ∧
    ¬ (store_gdbm_free store ptr).called
      = some DeallocRoutine.backendSpecific := by
  refine ⟨rfl, rfl, rfl, ?_⟩
  match ptr with
  | none => simp [store_gdbm_free, FREE]
  | some none => simp [store_gdbm_free, FREE]
  | some (some b2) => simp [store_gdbm_free, FREE]

/-- C7: a value is accepted only when it is exactly one character that is
neither alphanumeric nor one of minus, dot, backslash, slash; and once
the changed flag is set, every validation attempt returns
CSR_ERR_INVALID and the flag stays set, regardless of the value
offered. -/
theorem maildir_field_delimiter_validator_spec (changed : Bool)
    (initial value : Bytes) :
    ((maildir_field_delimiter_validator changed initial value).rc = CSR_SUCCESS →
      c_strlen value = 1 ∧
      c_isalnum (c_strhead value) = false ∧
      strchr_found delimiterExclusions (c_strhead value) = false) ∧
    (maildir_field_delimiter_validator true initial value).rc
      = CSR_ERR_INVALID ∧
    (maildir_field_delimiter_validator true initial value).changed = true := by
  refine ⟨?_, ?_, ?_⟩
  · intro h
    unfold maildir_field_delimiter_validator at h
    split_ifs at h with h1 h2 h3 h4
    · simp [CSR_ERR_INVALID, CSR_SUCCESS] at h
    · simp [CSR_ERR_INVALID, CSR_SUCCESS] at h
    · simp [CSR_ERR_INVALID, CSR_SUCCESS] at h
    all_goals
      simp only [Bool.or_eq_true, not_or, Bool.not_eq_true] at h2
      exact ⟨not_not.mp h1, h2.1, h2.2⟩
  · unfold maildir_field_delimiter_validator
    split_ifs <;> simp_all
  · unfold maildir_field_delimiter_validator
    split_ifs <;> simp_all

/-- Witness for C7 at concrete inputs: the semicolon (byte 59) accepted
against the initial colon (byte 58). -/
theorem maildir_field_delimiter_validator_spec_witness :
    c_strlen [59] = 1 ∧
    c_isalnum (c_strhead [59]) = false ∧
    strchr_found delimiterExclusions (c_strhead [59]) = false :=
  (maildir_field_delimiter_validator_spec false [58] [59]).1 (by decide)

/-- C10: starting from an unset flag, the changed flag is set only by an
accepted value whose character differs from that of the configured
initial value; and re-validating the configured initial default ":"
succeeds and leaves the flag unset, any number of times in a row. -/
theorem maildir_field_delimiter_initial_revalidation (initial value : Bytes)
    (h : (maildir_field_delimiter_validator false initial value).changed = true) :
    ((maildir_field_delimiter_validator false initial value).rc = CSR_SUCCESS ∧
      c_strhead value ≠ c_strhead initial) ∧
    maildir_field_delimiter_validator false maildirFieldDelimiterInitial
      maildirFieldDelimiterInitial = ⟨CSR_SUCCESS, false⟩ ∧
    (∀ n : Nat,
      validateSeqChanged maildirFieldDelimiterInitial
        (List.replicate n maildirFieldDelimiterInitial) false = false) := by
  refine ⟨?_, by decide, ?_⟩
  · unfold maildir_field_delimiter_validator at h ⊢
    split_ifs at h ⊢ with h1 h2 h3 h4
    exact ⟨rfl, h4⟩
  · intro n
    induction n with
    | zero => rfl
    | succ m ih =>
      have hstep : (maildir_field_delimiter_validator false
          maildirFieldDelimiterInitial maildirFieldDelimiterInitial).changed
          = false := by decide
      rw [List.replicate_succ]
      unfold validateSeqChanged
      rw [hstep]
      exact ih

/-- Witness for C10 at concrete inputs: semicolon accepted against the
initial colon sets the flag, and the repeated colon keeps it unset. -/
theorem maildir_field_delimiter_initial_revalidation_witness :
    ((maildir_field_delimiter_validator false [58] [59]).rc = CSR_SUCCESS ∧
      c_strhead [59] ≠ c_strhead [58]) ∧
    maildir_field_delimiter_validator false maildirFieldDelimiterInitial
      maildirFieldDelimiterInitial = ⟨CSR_SUCCESS, false⟩ ∧
    (∀ n : Nat,
      validateSeqChanged maildirFieldDelimiterInitial
        (List.replicate n maildirFieldDelimiterInitial) false = false) :=
  maildir_field_delimiter_initial_revalidation [58] [59] (by decide)

/-- C8: whenever the mailbox derived from the new mailbox view differs
from the shared mailbox, set_mview resets the shared email to NULL and
the shared email sequence to 0 in the same step; the resulting mailbox is
the derived one, and the resulting email is either NULL or the one
already held, so it is never carried over from a different mailbox. -/
theorem index_shared_data_set_mview_email_reset (sd : IndexSharedData)
    (mv : Option MailboxView) (nsub : ConfigSubset) :
    (index_shared_data_set_mview (some sd) mv nsub).1
      = some (set_mview_core sd mv nsub).1 ∧
    (set_mview_core sd mv nsub).1.mailbox = mview_mailbox mv ∧
    (mview_mailbox mv ≠ sd.mailbox →
      (set_mview_core sd mv nsub).1.email = none ∧
      (set_mview_core sd mv nsub).1.email_seq = 0) ∧
    ((set_mview_core sd mv nsub).1.email = sd.email ∨
      (set_mview_core sd mv nsub).1.email = none) := by
  refine ⟨rfl, ?_, ?_, ?_⟩
  · simp only [set_mview_core]
    split_ifs <;> simp_all
  · intro hne
    simp only [set_mview_core]
    split_ifs <;> simp_all
  · simp only [set_mview_core]
    split_ifs <;> simp_all

/-- A shared data instance pointing at mailbox 1 with a selected
email. -/
def sdExample : IndexSharedData :=
  ⟨none, some ⟨1, none⟩, none, 0, some ⟨7, 7⟩, 7⟩

/-- Witness for C8 at concrete inputs: a NULL view derives a NULL
mailbox, different from mailbox 1, so the email and its sequence are
reset. -/
theorem index_shared_data_set_mview_email_reset_witness :
    (set_mview_core sdExample none 0).1.email = none ∧
    (set_mview_core sdExample none 0).1.email_seq = 0 :=
  (index_shared_data_set_mview_email_reset sdExample none 0).2.2.1 (by decide)

/-- C9: is_cur_email decides currency solely by sequence number: for a
non-NULL shared data it returns true exactly when the sequence of the
offered email equals the shared email sequence, whatever email object
the shared data holds; for a NULL shared data it returns false. -/
theorem index_shared_data_is_cur_email_spec (sd : IndexSharedData)
    (e : Email) :
    (index_shared_data_is_cur_email (some sd) e = true
      ↔ sd.email_seq = e.sequence) ∧
    index_shared_data_is_cur_email none e = false := by
  constructor
  · simp [index_shared_data_is_cur_email]
  · rfl
